import Mathlib

/-
Verification of the kLa 3D visualization app (src/3D_visualization.py).

The script reads a CSV into a dataframe, lets the user pick three columns
(X = agitation, Y = gas flow, Z = kLa), validates that the chosen columns
are numeric, builds a 50 x 50 interpolation grid spanning the bounding box
of the X and Y data, evaluates a cubic scattered-data interpolation over
that grid, replaces undefined (NaN) estimates by 0, and assembles a Plotly
figure holding a surface trace and a scatter trace of the raw points.

The embedding below models the dataframe as a list of named columns whose
cells are either numeric (rationals stand in for floats) or textual, and
models the cubic interpolation of the scipy library as an abstract
estimate function returning none where the method yields no estimate
(NaN, e.g. outside the convex hull of the data).  All control flow of the
script after a file is uploaded is embedded explicitly.
-/

namespace KLaViz

/-- A cell of a parsed table: numeric, or non-numeric text. -/
inductive CellVal where
  | num (q : ℚ)
  | txt (s : String)
deriving DecidableEq, Repr

/-- A named column of the dataframe. -/
structure Column where
  name : String
  values : List CellVal
deriving DecidableEq, Repr

/-- A dataframe is a list of named columns (pd.read_csv result). -/
abbrev Table := List Column

/-- Embeds pd.api.types.is_numeric_dtype: a parsed column receives a
numeric dtype exactly when every cell of it is numeric. -/
def is_numeric_dtype (c : Column) : Bool :=
  c.values.all fun v => match v with | .num _ => true | .txt _ => false

/-- Column lookup by name, df[name]. -/
def getColumn (df : Table) (n : String) : Option Column :=
  df.find? fun c => c.name == n

/-- The numeric contents of a column, df[name].to_numpy() for a numeric
column (non-numeric cells are dropped; for a column passing
is_numeric_dtype there are none). -/
def toNumeric (c : Column) : List ℚ :=
  c.values.filterMap fun v => match v with | .num q => some q | .txt _ => none

/-- The numeric data of the named column of the dataframe (empty when the
name is absent, which the app's selectbox makes impossible). -/
def colData (df : Table) (n : String) : List ℚ :=
  ((getColumn df n).map toNumeric).getD []

/-- Embeds line 45: all(pd.api.types.is_numeric_dtype(df_kla[col]) for col
in [x_column_name, y_column_name, z_column_name]). -/
def selectedNumeric (df : Table) (xN yN zN : String) : Bool :=
  [xN, yN, zN].all fun n => ((getColumn df n).map is_numeric_dtype).getD false

/-- Embeds numpy arr.min() on a nonempty array (numpy raises on an empty
array; the empty case, unreachable under the claims' hypotheses, returns
0 here). -/
def npMin (l : List ℚ) : ℚ :=
  match l with
  | [] => 0
  | a :: rest => rest.foldl min a

/-- Embeds numpy arr.max() on a nonempty array (empty case as in npMin). -/
def npMax (l : List ℚ) : ℚ :=
  match l with
  | [] => 0
  | a :: rest => rest.foldl max a

/-- The fixed grid resolution of line 56: grid_res = 50. -/
def gridRes : ℕ := 50

/-- Embeds np.linspace(lo, hi, n): n evenly spaced points from lo to hi,
the k-th being lo + (hi - lo) * k / (n - 1).  Over the rationals the last
point equals hi exactly, as numpy guarantees for floats. -/
def linspace (lo hi : ℚ) (n : ℕ) : List ℚ :=
  (List.range n).map fun (k : ℕ) => lo + (hi - lo) * (k : ℚ) / ((n - 1 : ℕ) : ℚ)

/-- Embeds np.meshgrid(xi, yi) with the default xy indexing: both outputs
have yi.length rows of xi.length entries; the first repeats xi in every
row, the second repeats each yi entry across its row. -/
def meshgrid (xi yi : List ℚ) : List (List ℚ) × List (List ℚ) :=
  (yi.map fun _ => xi, yi.map fun yv => xi.map fun _ => yv)

/-- Lines 57-61: the interpolation grid over the bounding box of the
data, at resolution gridRes per axis. -/
def makeGrid (X_data Y_data : List ℚ) : List (List ℚ) × List (List ℚ) :=
  meshgrid (linspace (npMin X_data) (npMax X_data) gridRes)
    (linspace (npMin Y_data) (npMax Y_data) gridRes)

/-- Embeds scipy.interpolate.griddata evaluated on the meshgrid: the
estimate at each grid vertex.  The cubic scattered-data method itself is
external library code, modelled by the abstract estimate function f,
which returns none exactly where the method stores NaN (grid points
outside the convex hull of the data, or otherwise unresolvable). -/
def griddata (f : ℚ → ℚ → Option ℚ) (Xi Yi : List (List ℚ)) :
    List (List (Option ℚ)) :=
  List.zipWith (fun rx ry => List.zipWith f rx ry) Xi Yi

/-- The pointwise effect of line 68 on one entry: an undefined (NaN)
estimate becomes 0, a defined estimate is kept. -/
def fillVal (v : Option ℚ) : Option ℚ :=
  match v with
  | none => some 0
  | some q => some q

/-- Embeds line 68, Zi[np.isnan(Zi)] = 0: every undefined (NaN) entry of
the interpolated grid is overwritten with 0, defined entries are kept. -/
def fillNaN (Zi : List (List (Option ℚ))) : List (List (Option ℚ)) :=
  Zi.map fun row => row.map fillVal

/-- Entry (i, j) of a 2D grid, when both indices are in range. -/
def gridGet (g : List (List α)) (i j : ℕ) : Option α :=
  g[i]?.bind fun row => row[j]?

/-- The Interpolated Surface handed to the assembler: interpolate on the
grid of makeGrid, then fill NaNs with 0 (lines 57-68). -/
def interpSurface (f : ℚ → ℚ → Option ℚ) (X_data Y_data : List ℚ) :
    List (List (Option ℚ)) :=
  fillNaN (griddata f (makeGrid X_data Y_data).1 (makeGrid X_data Y_data).2)

/-- The scatter trace of lines 113-124 (go.Scatter3d). -/
structure Scatter3d where
  x : List ℚ
  y : List ℚ
  z : List ℚ
  markerSize : ℕ
  markerColor : String
deriving DecidableEq, Repr

/-- The surface trace of lines 80-110 (go.Surface); only the fields the
claims mention are carried. -/
structure Surface where
  x : List (List ℚ)
  y : List (List ℚ)
  z : List (List (Option ℚ))
  colorscale : String
deriving DecidableEq, Repr

/-- The assembled figure of lines 127-143, with the layout fields the
claims mention. -/
structure Figure where
  surface : Surface
  scatter : Scatter3d
  xaxisTitle : String
  yaxisTitle : String
  zaxisTitle : String
  titleText : String
  showlegend : Bool
deriving DecidableEq, Repr

/-- Lines 49-143 after validation passes: extract the three data columns,
interpolate onto the grid, fill NaNs, and assemble surface trace, scatter
trace and layout. -/
def buildFigure (f : ℚ → ℚ → Option ℚ) (df : Table)
    (xName yName zName : String) : Figure :=
  let X_data := colData df xName
  let Y_data := colData df yName
  let Z_data := colData df zName
  { surface :=
      { x := (makeGrid X_data Y_data).1
        y := (makeGrid X_data Y_data).2
        z := interpSurface f X_data Y_data
        colorscale := "Viridis" }
    scatter :=
      { x := X_data
        y := Y_data
        z := Z_data
        markerSize := 5
        markerColor := "red" }
    xaxisTitle := xName
    yaxisTitle := yName
    zaxisTitle := zName
    titleText := zName ++ " vs. " ++ xName ++ " and " ++ yName
    showlegend := true }

/-- The errors the script reports before halting the action (st.error
followed by st.stop): a file read failure (lines 23-25) or non-numeric
selected columns (lines 44-47).  The script has no other guard; in
particular no insufficient-sample error exists in the source. -/
inductive AppError where
  | readError (msg : String)
  | nonNumericColumns
deriving DecidableEq, Repr

/-- The whole action on an uploaded file (lines 17-146): if reading the
CSV failed the action halts with the read error; otherwise, with the
three selected column names, it halts with a validation error when a
selected column is not numeric, and else builds and shows the figure.
An Except.error value is a reported message plus st.stop: the action
ends with no chart and the process survives. -/
def runAction (f : ℚ → ℚ → Option ℚ) (readResult : Except String Table)
    (xName yName zName : String) : Except AppError Figure :=
  match readResult with
  | .error e => .error (.readError e)
  | .ok df =>
    if selectedNumeric df xName yName zName then
      .ok (buildFigure f df xName yName zName)
    else
      .error .nonNumericColumns

/-- The selectbox default index of lines 28-42:
df.columns.tolist().index(canonicalName) if the canonical name is a
column, else 0. -/
def defaultIndex (cols : List String) (canonicalName : String) : ℕ :=
  if canonicalName ∈ cols then cols.indexOf canonicalName else 0

/-- The canonical X column name of line 31. -/
def xCanonical : String := "Agitation RPM"

/-- The canonical Y column name of line 36. -/
def yCanonical : String := "Gas Flow (L/min)"

/-- The canonical Z column name of line 41. -/
def zCanonical : String := "kLa (s-1)"

/-- A concrete valid table whose X column is constant (degenerate x
bounds). -/
def dfDegenerate : Table :=
  [⟨"X", [.num 1, .num 1, .num 1]⟩,
   ⟨"Y", [.num 0, .num 1, .num 2]⟩,
   ⟨"Z", [.num 5, .num 6, .num 7]⟩]

/-- A concrete valid table whose Y column is constant (degenerate y
bounds). -/
def dfDegenerateY : Table :=
  [⟨"X", [.num 0, .num 1, .num 2]⟩,
   ⟨"Y", [.num 2, .num 2, .num 2]⟩,
   ⟨"Z", [.num 5, .num 6, .num 7]⟩]

/-- A concrete table whose Z column holds a non-numeric cell. -/
def dfNonNumeric : Table :=
  [⟨"X", [.num 300, .num 450, .num 600]⟩,
   ⟨"Y", [.num 1, .num 2, .num 3]⟩,
   ⟨"Z", [.num 150, .txt "n/a", .num 310]⟩]

/-- A concrete numeric table with only 2 samples (fewer than the 3 the
spec requires for interpolation). -/
def dfTwoSamples : Table :=
  [⟨"Agitation RPM", [.num 300, .num 450]⟩,
   ⟨"Gas Flow (L/min)", [.num 1, .num 2]⟩,
   ⟨"kLa (s-1)", [.num 150, .num 220]⟩]

/-! ## Helper lemmas -/

/-- Indexing commutes with mapping a function over every entry of a 2D
grid. -/
lemma gridGet_map (g : α → β) (G : List (List α)) (i j : ℕ) :
    gridGet (G.map fun row => row.map g) i j = (gridGet G i j).map g := by
  unfold gridGet
  rw [List.getElem?_map]
  cases h : G[i]? with
  | none => rfl
  | some row => simp [List.getElem?_map]

/-- Indexing into the pointwise zip of two 2D grids. -/
lemma gridGet_zipWith (f : α → β → γ) (A : List (List α)) (B : List (List β))
    (i j : ℕ) (a : α) (b : β)
    (ha : gridGet A i j = some a) (hb : gridGet B i j = some b) :
    gridGet (List.zipWith (fun ra rb => List.zipWith f ra rb) A B) i j
      = some (f a b) := by
  unfold gridGet at *
  rcases Option.bind_eq_some.mp ha with ⟨ra, hra, hja⟩
  rcases Option.bind_eq_some.mp hb with ⟨rb, hrb, hjb⟩
  have h1 : (List.zipWith (fun ra rb => List.zipWith f ra rb) A B)[i]?
      = some (List.zipWith f ra rb) :=
    (List.getElem?_zipWith_eq_some).mpr ⟨ra, rb, hra, hrb, rfl⟩
  rw [h1, Option.some_bind]
  exact (List.getElem?_zipWith_eq_some).mpr ⟨a, b, hja, hjb, rfl⟩

/-- A min-fold is bounded by its initial accumulator. -/
lemma foldl_min_le_init (a : ℚ) (l : List ℚ) : l.foldl min a ≤ a := by
  induction l generalizing a with
  | nil => exact le_refl a
  | cons b bs ih => exact le_trans (ih (min a b)) (min_le_left a b)

/-- A min-fold is bounded by every member of the list. -/
lemma foldl_min_le_mem (l : List ℚ) : ∀ (a b : ℚ), b ∈ l → l.foldl min a ≤ b := by
  induction l with
  | nil =>
    intro a b hb
    cases hb
  | cons c cs ih =>
    intro a b hb
    rw [List.foldl_cons]
    rcases List.mem_cons.mp hb with h | h
    · subst h
      exact le_trans (foldl_min_le_init (min a b) cs) (min_le_right a b)
    · exact ih (min a c) b h

/-- A min-fold returns its initial accumulator or a member of the list. -/
lemma foldl_min_mem (a : ℚ) (l : List ℚ) :
    l.foldl min a = a ∨ l.foldl min a ∈ l := by
  induction l generalizing a with
  | nil => exact Or.inl rfl
  | cons b bs ih =>
    rcases ih (min a b) with h | h
    · rcases min_choice a b with hm | hm
      · left
        rw [List.foldl_cons, h, hm]
      · right
        rw [List.foldl_cons, h, hm]
        exact List.mem_cons_self b bs
    · right
      exact List.mem_cons_of_mem b h

/-- A max-fold dominates its initial accumulator. -/
lemma foldl_max_init_le (a : ℚ) (l : List ℚ) : a ≤ l.foldl max a := by
  induction l generalizing a with
  | nil => exact le_refl a
  | cons b bs ih => exact le_trans (le_max_left a b) (ih (max a b))

/-- A max-fold dominates every member of the list. -/
lemma foldl_max_mem_le (l : List ℚ) : ∀ (a b : ℚ), b ∈ l → b ≤ l.foldl max a := by
  induction l with
  | nil =>
    intro a b hb
    cases hb
  | cons c cs ih =>
    intro a b hb
    rw [List.foldl_cons]
    rcases List.mem_cons.mp hb with h | h
    · subst h
      exact le_trans (le_max_right a b) (foldl_max_init_le (max a b) cs)
    · exact ih (max a c) b h

/-- A max-fold returns its initial accumulator or a member of the list. -/
lemma foldl_max_mem (a : ℚ) (l : List ℚ) :
    l.foldl max a = a ∨ l.foldl max a ∈ l := by
  induction l generalizing a with
  | nil => exact Or.inl rfl
  | cons b bs ih =>
    rcases ih (max a b) with h | h
    · rcases max_choice a b with hm | hm
      · left
        rw [List.foldl_cons, h, hm]
      · right
        rw [List.foldl_cons, h, hm]
        exact List.mem_cons_self b bs
    · right
      exact List.mem_cons_of_mem b h

/-- On a nonempty list, npMin is a member of the list. -/
lemma npMin_mem (l : List ℚ) (h : l ≠ []) : npMin l ∈ l := by
  cases l with
  | nil => exact absurd rfl h
  | cons a as =>
    show as.foldl min a ∈ a :: as
    rcases foldl_min_mem a as with h1 | h1
    · rw [h1]
      exact List.mem_cons_self a as
    · exact List.mem_cons_of_mem a h1

/-- npMin is a lower bound of the list. -/
lemma npMin_le (l : List ℚ) (b : ℚ) (hb : b ∈ l) : npMin l ≤ b := by
  cases l with
  | nil => cases hb
  | cons a as =>
    show as.foldl min a ≤ b
    rcases List.mem_cons.mp hb with h | h
    · subst h
      exact foldl_min_le_init b as
    · exact foldl_min_le_mem as a b h

/-- On a nonempty list, npMax is a member of the list. -/
lemma npMax_mem (l : List ℚ) (h : l ≠ []) : npMax l ∈ l := by
  cases l with
  | nil => exact absurd rfl h
  | cons a as =>
    show as.foldl max a ∈ a :: as
    rcases foldl_max_mem a as with h1 | h1
    · rw [h1]
      exact List.mem_cons_self a as
    · exact List.mem_cons_of_mem a h1

/-- npMax is an upper bound of the list. -/
lemma le_npMax (l : List ℚ) (b : ℚ) (hb : b ∈ l) : b ≤ npMax l := by
  cases l with
  | nil => cases hb
  | cons a as =>
    show b ≤ as.foldl max a
    rcases List.mem_cons.mp hb with h | h
    · subst h
      exact foldl_max_init_le b as
    · exact foldl_max_mem_le as a b h

/-- The length of a linspace is its requested point count. -/
lemma linspace_length (lo hi : ℚ) (n : ℕ) : (linspace lo hi n).length = n := by
  simp [linspace]

/-- The k-th point of a linspace, in closed form. -/
lemma linspace_getElem (lo hi : ℚ) (n k : ℕ) (h : k < n) :
    (linspace lo hi n)[k]? = some (lo + (hi - lo) * k / (n - 1 : ℕ)) := by
  unfold linspace
  rw [List.getElem?_map, List.getElem?_range h, Option.map_some']

/-- A linspace starts exactly at its lower bound. -/
lemma linspace_first (lo hi : ℚ) (n : ℕ) (h : 0 < n) :
    (linspace lo hi n)[0]? = some lo := by
  rw [linspace_getElem lo hi n 0 h]
  norm_num

/-- A 50-point linspace ends exactly at its upper bound. -/
lemma linspace_last (lo hi : ℚ) :
    (linspace lo hi 50)[49]? = some hi := by
  rw [linspace_getElem lo hi 50 49 (by norm_num)]
  congr 1
  push_cast
  ring

/-- Entry (i, j) of the X grid of makeGrid: the j-th linspace point over
the X bounds, independent of the row i. -/
lemma gridGet_makeGrid_fst (X_data Y_data : List ℚ) (i j : ℕ)
    (hi : i < gridRes) (hj : j < gridRes) :
    gridGet (makeGrid X_data Y_data).1 i j
      = some (npMin X_data + (npMax X_data - npMin X_data) * j
          / (gridRes - 1 : ℕ)) := by
  unfold makeGrid meshgrid gridGet
  have hylen : i < (linspace (npMin Y_data) (npMax Y_data) gridRes).length := by
    rw [linspace_length]; exact hi
  rw [List.getElem?_map, List.getElem?_eq_getElem hylen, Option.map_some',
    Option.some_bind]
  exact linspace_getElem _ _ _ _ hj

/-- Entry (i, j) of the Y grid of makeGrid: the i-th linspace point over
the Y bounds, independent of the column j. -/
lemma gridGet_makeGrid_snd (X_data Y_data : List ℚ) (i j : ℕ)
    (hi : i < gridRes) (hj : j < gridRes) :
    gridGet (makeGrid X_data Y_data).2 i j
      = some (npMin Y_data + (npMax Y_data - npMin Y_data) * i
          / (gridRes - 1 : ℕ)) := by
  unfold makeGrid meshgrid gridGet
  have hylen : i < (linspace (npMin Y_data) (npMax Y_data) gridRes).length := by
    rw [linspace_length]; exact hi
  have hxlen : j < (linspace (npMin X_data) (npMax X_data) gridRes).length := by
    rw [linspace_length]; exact hj
  have hval : (linspace (npMin Y_data) (npMax Y_data) gridRes)[i]
      = npMin Y_data + (npMax Y_data - npMin Y_data) * i / (gridRes - 1 : ℕ) := by
    have h1 := linspace_getElem (npMin Y_data) (npMax Y_data) gridRes i hi
    rw [List.getElem?_eq_getElem hylen] at h1
    exact Option.some.inj h1
  rw [List.getElem?_map, List.getElem?_eq_getElem hylen, Option.map_some',
    Option.some_bind, List.getElem?_map, List.getElem?_eq_getElem hxlen,
    Option.map_some', hval]

/-- The selectbox default index selects the canonical name when it is
among the columns, and the first column otherwise. -/
lemma defaultIndex_spec (cols : List String) (cn : String) :
    (cn ∈ cols → cols[defaultIndex cols cn]? = some cn) ∧
    (cn ∉ cols → cols[defaultIndex cols cn]? = cols.head?) := by
  constructor
  · intro h
    unfold defaultIndex
    rw [if_pos h]
    have hlt : cols.indexOf cn < cols.length := List.indexOf_lt_length.2 h
    rw [List.getElem?_eq_getElem hlt]
    exact congrArg some (List.getElem_indexOf hlt)
  · intro h
    unfold defaultIndex
    rw [if_neg h]
    exact (List.head?_eq_getElem? cols).symm

/-! ## Theorems -/

/-- C5: for every choice of X, Y and Z labels the assembled figure title
is exactly the Z label, " vs. ", the X label, " and ", the Y label; in
particular the kLa example title reads as the spec states. -/
theorem title_format (f : ℚ → ℚ → Option ℚ) (df : Table)
    (xName yName zName : String) :
    (buildFigure f df xName yName zName).titleText
      = zName ++ " vs. " ++ xName ++ " and " ++ yName ∧
    (buildFigure f df "Agitation (RPM)" "Gas Flow (SLPM)" "kLa (h⁻¹)").titleText
      = "kLa (h⁻¹) vs. Agitation (RPM) and Gas Flow (SLPM)" := by
  exact ⟨rfl, rfl⟩

/-- C6: the scatter trace of the assembled figure carries exactly the
selected X, Y and Z data columns, in input order, unmodified. -/
theorem scatter_is_raw_data (f : ℚ → ℚ → Option ℚ) (df : Table)
    (xName yName zName : String) :
    (buildFigure f df xName yName zName).scatter.x = colData df xName ∧
    (buildFigure f df xName yName zName).scatter.y = colData df yName ∧
    (buildFigure f df xName yName zName).scatter.z = colData df zName := by
  exact ⟨rfl, rfl, rfl⟩

/-- C1: for at least 3 samples per axis the grid has dimensions 50 x 50,
its x-axis coordinates are the 50 evenly spaced points from min(x) to
max(x) (k-th point min + (max - min) * k / 49, first exactly min, last
exactly max), its y-axis coordinates likewise span min(y) to max(y), and
the bounds are genuinely the minimum and maximum of the input data. -/
theorem grid_dims_and_bounds (X_data Y_data : List ℚ)
    (hx : 3 ≤ X_data.length) (hy : 3 ≤ Y_data.length) :
    ((makeGrid X_data Y_data).1.length = 50 ∧
      (∀ row ∈ (makeGrid X_data Y_data).1, row.length = 50)) ∧
    ((makeGrid X_data Y_data).2.length = 50 ∧
      (∀ row ∈ (makeGrid X_data Y_data).2, row.length = 50)) ∧
    ((linspace (npMin X_data) (npMax X_data) gridRes).length = 50 ∧
      (∀ k : ℕ, k < 50 →
        (linspace (npMin X_data) (npMax X_data) gridRes)[k]?
          = some (npMin X_data
              + (npMax X_data - npMin X_data) * (k : ℚ) / 49)) ∧
      (linspace (npMin X_data) (npMax X_data) gridRes)[0]?
        = some (npMin X_data) ∧
      (linspace (npMin X_data) (npMax X_data) gridRes)[49]?
        = some (npMax X_data)) ∧
    ((linspace (npMin Y_data) (npMax Y_data) gridRes).length = 50 ∧
      (∀ k : ℕ, k < 50 →
        (linspace (npMin Y_data) (npMax Y_data) gridRes)[k]?
          = some (npMin Y_data
              + (npMax Y_data - npMin Y_data) * (k : ℚ) / 49)) ∧
      (linspace (npMin Y_data) (npMax Y_data) gridRes)[0]?
        = some (npMin Y_data) ∧
      (linspace (npMin Y_data) (npMax Y_data) gridRes)[49]?
        = some (npMax Y_data)) ∧
    ((npMin X_data ∈ X_data ∧ ∀ b ∈ X_data, npMin X_data ≤ b) ∧
     (npMax X_data ∈ X_data ∧ ∀ b ∈ X_data, b ≤ npMax X_data) ∧
     (npMin Y_data ∈ Y_data ∧ ∀ b ∈ Y_data, npMin Y_data ≤ b) ∧
     (npMax Y_data ∈ Y_data ∧ ∀ b ∈ Y_data, b ≤ npMax Y_data)) := by
  have hxne : X_data ≠ [] := by
    intro h
    rw [h] at hx
    exact absurd hx (by norm_num)
  have hyne : Y_data ≠ [] := by
    intro h
    rw [h] at hy
    exact absurd hy (by norm_num)
  have hform : ∀ (lo hi : ℚ) (k : ℕ), k < 50 →
      (linspace lo hi gridRes)[k]? = some (lo + (hi - lo) * (k : ℚ) / 49) := by
    intro lo hi k hk
    rw [linspace_getElem lo hi gridRes k hk]
    norm_num [gridRes]
  refine ⟨⟨?_, ?_⟩, ⟨?_, ?_⟩, ⟨?_, hform _ _, ?_, ?_⟩, ⟨?_, hform _ _, ?_, ?_⟩,
    ⟨npMin_mem _ hxne, fun b hb => npMin_le _ b hb⟩,
    ⟨npMax_mem _ hxne, fun b hb => le_npMax _ b hb⟩,
    ⟨npMin_mem _ hyne, fun b hb => npMin_le _ b hb⟩,
    ⟨npMax_mem _ hyne, fun b hb => le_npMax _ b hb⟩⟩
  · simp [makeGrid, meshgrid, linspace_length, gridRes]
  · intro row hrow
    simp only [makeGrid, meshgrid, List.mem_map] at hrow
    rcases hrow with ⟨_, _, rfl⟩
    simp [linspace_length, gridRes]
  · simp [makeGrid, meshgrid, linspace_length, gridRes]
  · intro row hrow
    simp only [makeGrid, meshgrid, List.mem_map] at hrow
    rcases hrow with ⟨_, _, rfl⟩
    simp [linspace_length, gridRes]
  · simp [linspace_length, gridRes]
  · exact linspace_first _ _ _ (by norm_num [gridRes])
  · exact linspace_last _ _
  · simp [linspace_length, gridRes]
  · exact linspace_first _ _ _ (by norm_num [gridRes])
  · exact linspace_last _ _

/-- C1 witness: three samples per axis give a 50-row grid. -/
theorem grid_dims_and_bounds_witness :
    (makeGrid [300, 450, 600] [1, 2, 3]).1.length = 50 :=
  (grid_dims_and_bounds [300, 450, 600] [1, 2, 3] (by decide) (by decide)).1.1

/-- C2: every grid vertex at which the cubic interpolation yields no
estimate (none, i.e. NaN: outside the convex hull or otherwise
unresolvable) holds exactly 0 in the Interpolated Surface after the
fill step. -/
theorem outside_hull_is_zero (f : ℚ → ℚ → Option ℚ) (X_data Y_data : List ℚ)
    (i j : ℕ) (x y : ℚ)
    (hx : gridGet (makeGrid X_data Y_data).1 i j = some x)
    (hy : gridGet (makeGrid X_data Y_data).2 i j = some y)
    (hnone : f x y = none) :
    gridGet (interpSurface f X_data Y_data) i j = some (some 0) := by
  have hz : gridGet (griddata f (makeGrid X_data Y_data).1
      (makeGrid X_data Y_data).2) i j = some (f x y) :=
    gridGet_zipWith f _ _ i j x y hx hy
  unfold interpSurface fillNaN
  rw [gridGet_map, hz, hnone]
  rfl

/-- C2 witness: with every estimate undefined, the corner vertex of the
grid over three samples on each axis holds exactly 0. -/
theorem outside_hull_is_zero_witness :
    gridGet (interpSurface (fun _ _ => none) [0, 1, 2] [0, 1, 2]) 0 0
      = some (some 0) :=
  outside_hull_is_zero (fun _ _ => none) [0, 1, 2] [0, 1, 2] 0 0
    (npMin [0, 1, 2] + (npMax [0, 1, 2] - npMin [0, 1, 2]) * (0 : ℕ)
      / (gridRes - 1 : ℕ))
    (npMin [0, 1, 2] + (npMax [0, 1, 2] - npMin [0, 1, 2]) * (0 : ℕ)
      / (gridRes - 1 : ℕ))
    (gridGet_makeGrid_fst [0, 1, 2] [0, 1, 2] 0 0 (by decide) (by decide))
    (gridGet_makeGrid_snd [0, 1, 2] [0, 1, 2] 0 0 (by decide) (by decide))
    rfl

/-- C10: after the fill step the Interpolated Surface contains no
undefined (NaN) entry: every cell holds a defined number, whatever the
data and whatever the interpolation method did. -/
theorem no_nan_after_fill (f : ℚ → ℚ → Option ℚ) (X_data Y_data : List ℚ) :
    ((interpSurface f X_data Y_data).all fun row => row.all Option.isSome)
      = true := by
  rw [List.all_eq_true]
  rintro row hrow
  simp only [interpSurface, fillNaN, List.mem_map] at hrow
  rcases hrow with ⟨r, hr, rfl⟩
  rw [List.all_eq_true]
  rintro v hv
  simp only [List.mem_map] at hv
  rcases hv with ⟨u, hu, rfl⟩
  cases u <;> rfl

/-- C7: each of the three column selectors defaults to the column whose
name exactly matches its canonical name (Agitation RPM for X, Gas Flow
(L/min) for Y, kLa (s-1) for Z) when present among the parsed column
names, and to the first column otherwise. -/
theorem selectbox_defaults (cols : List String) :
    ((xCanonical ∈ cols → cols[defaultIndex cols xCanonical]? = some xCanonical) ∧
     (xCanonical ∉ cols → cols[defaultIndex cols xCanonical]? = cols.head?)) ∧
    ((yCanonical ∈ cols → cols[defaultIndex cols yCanonical]? = some yCanonical) ∧
     (yCanonical ∉ cols → cols[defaultIndex cols yCanonical]? = cols.head?)) ∧
    ((zCanonical ∈ cols → cols[defaultIndex cols zCanonical]? = some zCanonical) ∧
     (zCanonical ∉ cols → cols[defaultIndex cols zCanonical]? = cols.head?)) :=
  ⟨defaultIndex_spec cols xCanonical, defaultIndex_spec cols yCanonical,
    defaultIndex_spec cols zCanonical⟩

/-- C7 witness: on a table holding the canonical X name the X selector
defaults to it, and on a table without the canonical Z name the Z
selector defaults to the first column. -/
theorem selectbox_defaults_witness :
    (["Agitation RPM", "Gas Flow (L/min)", "kLa (s-1)"][defaultIndex
        ["Agitation RPM", "Gas Flow (L/min)", "kLa (s-1)"] xCanonical]?
      = some xCanonical) ∧
    (["foo", "bar"][defaultIndex ["foo", "bar"] zCanonical]?
      = (["foo", "bar"] : List String).head?) :=
  ⟨(selectbox_defaults ["Agitation RPM", "Gas Flow (L/min)", "kLa (s-1)"]).1.1
      (by decide),
    (selectbox_defaults ["foo", "bar"]).2.2.2 (by decide)⟩

/-- A linspace over coinciding bounds is 50 copies of that one value. -/
lemma linspace_degenerate (c : ℚ) :
    linspace c c gridRes = List.replicate 50 c := by
  unfold linspace
  have hconst : (fun (k : ℕ) => c + (c - c) * (k : ℚ) / ((gridRes - 1 : ℕ) : ℚ))
      = fun (_ : ℕ) => c := by
    funext k
    simp
  rw [hconst, List.map_const', List.length_range]
  rfl

/-- C9: degenerate bounds are not guarded: on a valid (numeric) table,
when every x value equals the same constant the action reports no error
and proceeds, the x axis coordinate sequence being 50 copies of that
constant (min = max) and the surface x grid built from it, 50 rows of 50
copies, being what interpolation is evaluated on; and likewise when every
y value equals the same constant, for the y axis sequence and the surface
y grid. -/
theorem degenerate_bounds_unguarded (f : ℚ → ℚ → Option ℚ) (df : Table)
    (xName yName zName : String) (c : ℚ)
    (hnum : selectedNumeric df xName yName zName = true) :
    ((colData df xName ≠ [] ∧ ∀ a ∈ colData df xName, a = c) →
      runAction f (.ok df) xName yName zName
        = .ok (buildFigure f df xName yName zName) ∧
      linspace (npMin (colData df xName)) (npMax (colData df xName)) gridRes
        = List.replicate 50 c ∧
      (buildFigure f df xName yName zName).surface.x
        = List.replicate 50 (List.replicate 50 c)) ∧
    ((colData df yName ≠ [] ∧ ∀ a ∈ colData df yName, a = c) →
      runAction f (.ok df) xName yName zName
        = .ok (buildFigure f df xName yName zName) ∧
      linspace (npMin (colData df yName)) (npMax (colData df yName)) gridRes
        = List.replicate 50 c ∧
      (buildFigure f df xName yName zName).surface.y
        = List.replicate 50 (List.replicate 50 c)) := by
  constructor
  · rintro ⟨hne, hall⟩
    have hmin : npMin (colData df xName) = c := hall _ (npMin_mem _ hne)
    have hmax : npMax (colData df xName) = c := hall _ (npMax_mem _ hne)
    refine ⟨by simp [runAction, hnum],
      by rw [hmin, hmax, linspace_degenerate], ?_⟩
    show (makeGrid (colData df xName) (colData df yName)).1
        = List.replicate 50 (List.replicate 50 c)
    unfold makeGrid meshgrid
    rw [hmin, hmax, linspace_degenerate, List.map_const', linspace_length]
    rfl
  · rintro ⟨hne, hall⟩
    have hmin : npMin (colData df yName) = c := hall _ (npMin_mem _ hne)
    have hmax : npMax (colData df yName) = c := hall _ (npMax_mem _ hne)
    refine ⟨by simp [runAction, hnum],
      by rw [hmin, hmax, linspace_degenerate], ?_⟩
    show (makeGrid (colData df xName) (colData df yName)).2
        = List.replicate 50 (List.replicate 50 c)
    have h2 : (makeGrid (colData df xName) (colData df yName)).2
        = (linspace (npMin (colData df yName)) (npMax (colData df yName))
            gridRes).map fun yv =>
              (linspace (npMin (colData df xName)) (npMax (colData df xName))
                gridRes).map fun _ => yv := rfl
    rw [h2, hmin, hmax, linspace_degenerate, List.map_replicate,
      List.map_const', linspace_length]
    rfl

/-- C9 witness: on a concrete table whose X column is constantly 1 the
action succeeds and the x coordinates are 50 copies of 1; on a concrete
table whose Y column is constantly 2 the action succeeds and the y
coordinates are 50 copies of 2. -/
theorem degenerate_bounds_unguarded_witness :
    (runAction (fun _ _ => none) (.ok dfDegenerate) "X" "Y" "Z"
        = .ok (buildFigure (fun _ _ => none) dfDegenerate "X" "Y" "Z") ∧
      linspace (npMin (colData dfDegenerate "X"))
          (npMax (colData dfDegenerate "X")) gridRes
        = List.replicate 50 1) ∧
    (runAction (fun _ _ => none) (.ok dfDegenerateY) "X" "Y" "Z"
        = .ok (buildFigure (fun _ _ => none) dfDegenerateY "X" "Y" "Z") ∧
      linspace (npMin (colData dfDegenerateY "Y"))
          (npMax (colData dfDegenerateY "Y")) gridRes
        = List.replicate 50 2) :=
  ⟨⟨((degenerate_bounds_unguarded (fun _ _ => none) dfDegenerate "X" "Y" "Z" 1
        (by decide)).1 ⟨by decide, by decide⟩).1,
    ((degenerate_bounds_unguarded (fun _ _ => none) dfDegenerate "X" "Y" "Z" 1
        (by decide)).1 ⟨by decide, by decide⟩).2.1⟩,
   ⟨((degenerate_bounds_unguarded (fun _ _ => none) dfDegenerateY "X" "Y" "Z" 2
        (by decide)).2 ⟨by decide, by decide⟩).1,
    ((degenerate_bounds_unguarded (fun _ _ => none) dfDegenerateY "X" "Y" "Z" 2
        (by decide)).2 ⟨by decide, by decide⟩).2.1⟩⟩

/-- C4: when a selected column holds non-numeric data (fails the dtype
check) the action halts with the validation error: no grid and no figure
are produced. -/
theorem nonnumeric_rejected (f : ℚ → ℚ → Option ℚ) (df : Table)
    (xName yName zName : String) (n : String) (c : Column)
    (hn : n = xName ∨ n = yName ∨ n = zName)
    (hc : getColumn df n = some c)
    (hnn : is_numeric_dtype c = false) :
    runAction f (.ok df) xName yName zName = .error .nonNumericColumns := by
  cases hsel : selectedNumeric df xName yName zName with
  | false => simp [runAction, hsel]
  | true =>
    exfalso
    unfold selectedNumeric at hsel
    rw [List.all_eq_true] at hsel
    have hmem : n ∈ [xName, yName, zName] := by
      rcases hn with h | h | h <;> subst h <;> simp
    have h2 := hsel n hmem
    rw [hc] at h2
    simp only [Option.map_some', Option.getD_some] at h2
    rw [hnn] at h2
    cases h2

/-- C4 witness: a table with a textual cell in the Z column is rejected
with the validation error. -/
theorem nonnumeric_rejected_witness :
    runAction (fun _ _ => none) (.ok dfNonNumeric) "X" "Y" "Z"
      = .error .nonNumericColumns :=
  nonnumeric_rejected (fun _ _ => none) dfNonNumeric "X" "Y" "Z" "Z"
    ⟨"Z", [.num 150, .txt "n/a", .num 310]⟩
    (Or.inr (Or.inr rfl)) (by decide) (by decide)

/-- C8: each erroneous input is reported as an error value at which the
action halts: an unreadable file yields the read error and a failed
numeric validation yields the validation error; in both cases the result
carries no figure, so no partial chart exists, and the model returns
normally (the embedded control flow has no process-fatal path). -/
theorem errors_reported_and_halt (f : ℚ → ℚ → Option ℚ) (e : String)
    (df : Table) (xName yName zName : String)
    (hbad : selectedNumeric df xName yName zName = false) :
    runAction f (.error e) xName yName zName = .error (.readError e) ∧
    runAction f (.ok df) xName yName zName = .error .nonNumericColumns := by
  refine ⟨rfl, ?_⟩
  simp [runAction, hbad]

/-- C8 witness: a concrete unreadable file and a concrete non-numeric
table are both reported and halt the action. -/
theorem errors_reported_and_halt_witness :
    runAction (fun _ _ => none) (.error "bad csv") "X" "Y" "Z"
      = .error (.readError "bad csv") ∧
    runAction (fun _ _ => none) (.ok dfNonNumeric) "X" "Y" "Z"
      = .error .nonNumericColumns :=
  errors_reported_and_halt (fun _ _ => none) "bad csv" dfNonNumeric
    "X" "Y" "Z" (by decide)

/-- C3 counterexample: the source has no sample-count guard.  On a
numeric table of only 2 samples the action reports no error and proceeds
into grid construction and interpolation, producing a grid: the claimed
InsufficientSamples report (with the interpolator never reached) does not
happen. -/
theorem two_samples_reach_interpolation :
    (colData dfTwoSamples "Agitation RPM").length = 2 ∧
    runAction (fun _ _ => none) (.ok dfTwoSamples)
        "Agitation RPM" "Gas Flow (L/min)" "kLa (s-1)"
      = .ok (buildFigure (fun _ _ => none) dfTwoSamples
          "Agitation RPM" "Gas Flow (L/min)" "kLa (s-1)") := by
  have hsel : selectedNumeric dfTwoSamples
      "Agitation RPM" "Gas Flow (L/min)" "kLa (s-1)" = true := by decide
  exact ⟨rfl, by simp [runAction, hsel]⟩

/-- C3 amended: for every table whose three selected columns are numeric
the action reports no error and proceeds to the grid interpolator,
whatever the number of samples; the source carries no InsufficientSamples
guard at all. -/
theorem no_sample_count_guard (f : ℚ → ℚ → Option ℚ) (df : Table)
    (xName yName zName : String)
    (hsel : selectedNumeric df xName yName zName = true) :
    runAction f (.ok df) xName yName zName
      = .ok (buildFigure f df xName yName zName) := by
  simp [runAction, hsel]

/-- C3 amended witness: the 2-sample table passes validation and the
action builds the figure. -/
theorem no_sample_count_guard_witness :
    runAction (fun _ _ => none) (.ok dfTwoSamples)
        "Agitation RPM" "Gas Flow (L/min)" "kLa (s-1)"
      = .ok (buildFigure (fun _ _ => none) dfTwoSamples
          "Agitation RPM" "Gas Flow (L/min)" "kLa (s-1)") :=
  no_sample_count_guard (fun _ _ => none) dfTwoSamples
    "Agitation RPM" "Gas Flow (L/min)" "kLa (s-1)" (by decide)

end KLaViz
